import Mathlib

/-!
Verification of the ouinet core against its design document.

The development embeds, in a shallow way, the parts of the source that the
checked claims are about:

* the per-block hash chain and block signing strings of the signed-HTTP
  cache codec (`SigningReader::Impl::process_part`,
  `VerifyingReader::Impl::process_part` in `http_sign.cpp`);
* the verifying reader's streaming state machine and its error paths;
* the chunk-extension builder `block_chunk_ext`;
* the BitTorrent DHT node's inbound query handlers (`dht::DhtNode::handle_query`)
  for `get` and `put`, together with bencoding;
* the adaptive reply-time statistic (`Stat`) and the reply timeout of
  `send_query_await_reply`;
* the atomic-file commit of the local store (`atomic_file::commit`);
* the inner parsing loop of `HashList::load`.

Bytes are modelled as natural numbers (the source works on `uint8_t`), byte
strings as `List Nat`.  SHA-512 and SHA-256 are implemented in full so that
concrete hash chains can be evaluated inside proofs; Ed25519 signing and
verification, which the source calls through an external library, are kept
as function parameters of the models.
-/

set_option maxRecDepth 400000

namespace Ouinet

/-! ## SHA-512 and SHA-256 (util/hash.h wraps these primitives) -/

def M64 : Nat := 18446744073709551616

def w64 (n : Nat) : Nat := n % M64

def rotr64 (k x : Nat) : Nat := ((x >>> k) ||| (x <<< (64 - k))) % M64

def xor3 (a b c : Nat) : Nat := (a ^^^ b) ^^^ c

def bS0 (x : Nat) : Nat := xor3 (rotr64 28 x) (rotr64 34 x) (rotr64 39 x)

def bS1 (x : Nat) : Nat := xor3 (rotr64 14 x) (rotr64 18 x) (rotr64 41 x)

def sS0 (x : Nat) : Nat := xor3 (rotr64 1 x) (rotr64 8 x) (x >>> 7)

def sS1 (x : Nat) : Nat := xor3 (rotr64 19 x) (rotr64 61 x) (x >>> 6)

def ch64 (x y z : Nat) : Nat := (x &&& y) ^^^ ((x ^^^ (M64 - 1)) &&& z)

def maj64 (x y z : Nat) : Nat := ((x &&& y) ^^^ (x &&& z)) ^^^ (y &&& z)

def sha512K : List Nat := [4794697086780616226,
8158064640168781261, 13096744586834688815, 16840607885511220156,
4131703408338449720, 6480981068601479193, 10538285296894168987,
12329834152419229976, 15566598209576043074, 1334009975649890238,
2608012711638119052, 6128411473006802146, 8268148722764581231,
9286055187155687089, 11230858885718282805, 13951009754708518548,
16472876342353939154, 17275323862435702243, 1135362057144423861,
2597628984639134821, 3308224258029322869, 5365058923640841347,
6679025012923562964, 8573033837759648693, 10970295158949994411,
12119686244451234320, 12683024718118986047, 13788192230050041572,
14330467153632333762, 15395433587784984357, 489312712824947311,
1452737877330783856, 2861767655752347644, 3322285676063803686,
5560940570517711597, 5996557281743188959, 7280758554555802590,
8532644243296465576, 9350256976987008742, 10552545826968843579,
11727347734174303076, 12113106623233404929, 14000437183269869457,
14369950271660146224, 15101387698204529176, 15463397548674623760,
17586052441742319658, 1182934255886127544, 1847814050463011016,
2177327727835720531, 2830643537854262169, 3796741975233480872,
4115178125766777443, 5681478168544905931, 6601373596472566643,
7507060721942968483, 8399075790359081724, 8693463985226723168,
9568029438360202098, 10144078919501101548, 10430055236837252648,
11840083180663258601, 13761210420658862357, 14299343276471374635,
14566680578165727644, 15097957966210449927, 16922976911328602910,
17689382322260857208, 500013540394364858, 748580250866718886,
1242879168328830382, 1977374033974150939, 2944078676154940804,
3659926193048069267, 4368137639120453308, 4836135668995329356,
5532061633213252278, 6448918945643986474, 6902733635092675308,
7801388544844847127]

def sha512Init : List Nat := [7640891576956012808, 13503953896175478587,
4354685564936845355, 11912009170470909681, 5840696475078001361,
11170449401992604703, 2270897969802886507, 6620516959819538809]

def sha512ExtendRev (rev : List Nat) : Nat :=
  w64 (sS1 (rev.getD 1 0) + rev.getD 6 0 + sS0 (rev.getD 14 0) + rev.getD 15 0)

def sha512ScheduleAux : Nat → List Nat → List Nat
  | 0, rev => rev
  | n+1, rev => sha512ScheduleAux n (sha512ExtendRev rev :: rev)

def sha512Schedule (ws : List Nat) : List Nat :=
  (sha512ScheduleAux 64 ws.reverse).reverse

structure Sha2St where
  a : Nat
  b : Nat
  c : Nat
  d : Nat
  e : Nat
  f : Nat
  g : Nat
  h : Nat
deriving DecidableEq

def sha512Round (st : Sha2St) (kw : Nat × Nat) : Sha2St :=
  let t1 := w64 (st.h + bS1 st.e + ch64 st.e st.f st.g + kw.1 + kw.2)
  let t2 := w64 (bS0 st.a + maj64 st.a st.b st.c)
  ⟨w64 (t1 + t2), st.a, st.b, st.c, w64 (st.d + t1), st.e, st.f, st.g⟩

def sha512Compress (h : List Nat) (block : List Nat) : List Nat :=
  let W := sha512Schedule block
  let st0 : Sha2St := ⟨h.getD 0 0, h.getD 1 0, h.getD 2 0, h.getD 3 0,
                       h.getD 4 0, h.getD 5 0, h.getD 6 0, h.getD 7 0⟩
  let st := (sha512K.zip W).foldl sha512Round st0
  [ w64 (h.getD 0 0 + st.a), w64 (h.getD 1 0 + st.b), w64 (h.getD 2 0 + st.c)
  , w64 (h.getD 3 0 + st.d), w64 (h.getD 4 0 + st.e), w64 (h.getD 5 0 + st.f)
  , w64 (h.getD 6 0 + st.g), w64 (h.getD 7 0 + st.h) ]

def bytesToW64 : List Nat → List Nat
  | b0 :: b1 :: b2 :: b3 :: b4 :: b5 :: b6 :: b7 :: rest =>
      ((((((((((((((b0 <<< 8) ||| b1) <<< 8) ||| b2) <<< 8) ||| b3) <<< 8)
        ||| b4) <<< 8) ||| b5) <<< 8) ||| b6) <<< 8) ||| b7) :: bytesToW64 rest
  | _ => []

def w64ToBytes (x : Nat) : List Nat :=
  [ (x >>> 56) &&& 255, (x >>> 48) &&& 255, (x >>> 40) &&& 255, (x >>> 32) &&& 255
  , (x >>> 24) &&& 255, (x >>> 16) &&& 255, (x >>> 8) &&& 255, x &&& 255 ]

def chunksAux (sz : Nat) : Nat → List Nat → List (List Nat)
  | 0, _ => []
  | _, [] => []
  | n+1, l => l.take sz :: chunksAux sz n (l.drop sz)

/-- Partition a byte string into `sz`-byte pieces; the last piece may be
shorter.  This is both the hash input blocking and (with `sz` the response
block size) the body-to-block quantisation of `util::quantized_buffer`. -/
def chunks (sz : Nat) (l : List Nat) : List (List Nat) :=
  chunksAux sz (l.length + 1) l

def lenBytes16 (n : Nat) : List Nat :=
  ((List.range 16).reverse).map (fun i => (n >>> (8*i)) &&& 255)

def sha512Pad (msg : List Nat) : List Nat :=
  let L := msg.length
  let z := (128 - ((L + 17) % 128)) % 128
  msg ++ [128] ++ List.replicate z 0 ++ lenBytes16 (8*L)

/-- SHA-512 of a byte string, as a 64-byte string (util::SHA512). -/
def sha512 (msg : List Nat) : List Nat :=
  (((chunks 128 (sha512Pad msg)).map bytesToW64).foldl sha512Compress sha512Init).foldr
    (fun w acc => w64ToBytes w ++ acc) []

def M32 : Nat := 4294967296

def w32 (n : Nat) : Nat := n % M32

def rotr32 (k x : Nat) : Nat := ((x >>> k) ||| (x <<< (32 - k))) % M32

def bT0 (x : Nat) : Nat := xor3 (rotr32 2 x) (rotr32 13 x) (rotr32 22 x)

def bT1 (x : Nat) : Nat := xor3 (rotr32 6 x) (rotr32 11 x) (rotr32 25 x)

def sT0 (x : Nat) : Nat := xor3 (rotr32 7 x) (rotr32 18 x) (x >>> 3)

def sT1 (x : Nat) : Nat := xor3 (rotr32 17 x) (rotr32 19 x) (x >>> 10)

def ch32 (x y z : Nat) : Nat := (x &&& y) ^^^ ((x ^^^ (M32 - 1)) &&& z)

def sha256K : List Nat := [1116352408, 1899447441, 3049323471, 3921009573,
961987163, 1508970993, 2453635748, 2870763221, 3624381080, 310598401,
607225278, 1426881987, 1925078388, 2162078206, 2614888103, 3248222580,
3835390401, 4022224774, 264347078, 604807628, 770255983, 1249150122,
1555081692, 1996064986, 2554220882, 2821834349, 2952996808, 3210313671,
3336571891, 3584528711, 113926993, 338241895, 666307205, 773529912,
1294757372, 1396182291, 1695183700, 1986661051, 2177026350, 2456956037,
2730485921, 2820302411, 3259730800, 3345764771, 3516065817, 3600352804,
4094571909, 275423344, 430227734, 506948616, 659060556, 883997877,
958139571, 1322822218, 1537002063, 1747873779, 1955562222, 2024104815,
2227730452, 2361852424, 2428436474, 2756734187, 3204031479, 3329325298]

def sha256Init : List Nat := [1779033703, 3144134277, 1013904242, 2773480762,
1359893119, 2600822924, 528734635, 1541459225]

def sha256ExtendRev (rev : List Nat) : Nat :=
  w32 (sT1 (rev.getD 1 0) + rev.getD 6 0 + sT0 (rev.getD 14 0) + rev.getD 15 0)

def sha256ScheduleAux : Nat → List Nat → List Nat
  | 0, rev => rev
  | n+1, rev => sha256ScheduleAux n (sha256ExtendRev rev :: rev)

def sha256Schedule (ws : List Nat) : List Nat :=
  (sha256ScheduleAux 48 ws.reverse).reverse

def sha256Round (st : Sha2St) (kw : Nat × Nat) : Sha2St :=
  let t1 := w32 (st.h + bT1 st.e + ch32 st.e st.f st.g + kw.1 + kw.2)
  let t2 := w32 (bT0 st.a + maj64 st.a st.b st.c)
  ⟨w32 (t1 + t2), st.a, st.b, st.c, w32 (st.d + t1), st.e, st.f, st.g⟩

def sha256Compress (h : List Nat) (block : List Nat) : List Nat :=
  let W := sha256Schedule block
  let st0 : Sha2St := ⟨h.getD 0 0, h.getD 1 0, h.getD 2 0, h.getD 3 0,
                       h.getD 4 0, h.getD 5 0, h.getD 6 0, h.getD 7 0⟩
  let st := (sha256K.zip W).foldl sha256Round st0
  [ w32 (h.getD 0 0 + st.a), w32 (h.getD 1 0 + st.b), w32 (h.getD 2 0 + st.c)
  , w32 (h.getD 3 0 + st.d), w32 (h.getD 4 0 + st.e), w32 (h.getD 5 0 + st.f)
  , w32 (h.getD 6 0 + st.g), w32 (h.getD 7 0 + st.h) ]

def bytesToW32 : List Nat → List Nat
  | b0 :: b1 :: b2 :: b3 :: rest =>
      ((((((b0 <<< 8) ||| b1) <<< 8) ||| b2) <<< 8) ||| b3) :: bytesToW32 rest
  | _ => []

def w32ToBytes (x : Nat) : List Nat :=
  [ (x >>> 24) &&& 255, (x >>> 16) &&& 255, (x >>> 8) &&& 255, x &&& 255 ]

def lenBytes8 (n : Nat) : List Nat :=
  ((List.range 8).reverse).map (fun i => (n >>> (8*i)) &&& 255)

def sha256Pad (msg : List Nat) : List Nat :=
  let L := msg.length
  let z := (64 - ((L + 9) % 64)) % 64
  msg ++ [128] ++ List.replicate z 0 ++ lenBytes8 (8*L)

/-- SHA-256 of a byte string, as a 32-byte string (util::SHA256). -/
def sha256 (msg : List Nat) : List Nat :=
  (((chunks 64 (sha256Pad msg)).map bytesToW32).foldl sha256Compress sha256Init).foldr
    (fun w acc => w32ToBytes w ++ acc) []

/-! ## Signed response codec: block signing strings and the hash chain
(cache/http_sign.cpp: SigningReader::Impl::process_part,
VerifyingReader::Impl::process_part, block_sig_str, block_chunk_ext) -/

def decimalDigitsAux : Nat → Nat → List Nat
  | 0, _ => []
  | _, 0 => []
  | f+1, n => decimalDigitsAux f (n / 10) ++ [48 + n % 10]

/-- Decimal ASCII rendering of a number (what boost::format %d produces for
the size_t block offset). -/
def decimalBytes (n : Nat) : List Nat :=
  if n = 0 then [48] else decimalDigitsAux (n+1) n

/-- block_sig_str: the signing string of one data block, built by the format
string %s%c%d%c%s from the injection id, a NUL byte, the decimal block
offset, a NUL byte and the raw chain-digest bytes. -/
def block_sig_str (injection_id : List Nat) (block_offset : Nat)
    (block_digest : List Nat) : List Nat :=
  injection_id ++ [0] ++ decimalBytes block_offset ++ [0] ++ block_digest

def base64Alphabet : List Char :=
  ("ABCDEFGHIJKLMNOPQRSTUVWXYZabcdefghijklmnopqrstuvwxyz0123456789+/").toList

def b64Char (n : Nat) : Char := base64Alphabet.getD n 'A'

/-- util::base64_encode on a byte string. -/
def base64_encode : List Nat → List Char
  | [] => []
  | [a] => [b64Char (a >>> 2), b64Char ((a % 4) <<< 4), '=', '=']
  | [a, b] => [b64Char (a >>> 2), b64Char (((a % 4) <<< 4) ||| (b >>> 4)),
               b64Char ((b % 16) <<< 2), '=']
  | a :: b :: c :: rest =>
      b64Char (a >>> 2) :: b64Char (((a % 4) <<< 4) ||| (b >>> 4)) ::
      b64Char (((b % 16) <<< 2) ||| (c >>> 6)) :: b64Char (c % 64) ::
      base64_encode rest

/-- block_chunk_ext: renders the chunk-extension string from an optional
block signature and an optional previous chain digest — ;ouisig="…" then
;ouihash="…", each present only when its argument is.  The overload the
signing reader calls passes only a signature, so prev_digest keeps its
default empty value there. -/
def block_chunk_ext (sig : Option (List Nat)) (prev_digest : Option (List Nat)) :
    List Char :=
  (match sig with
   | some s => (";ouisig=\"").toList ++ base64_encode s ++ ['"']
   | none => []) ++
  (match prev_digest with
   | some d => (";ouihash=\"").toList ++ base64_encode d ++ ['"']
   | none => [])

/-- Data-path state of SigningReader::Impl: block_offset, block_size_last and
the bytes accumulated so far in the incremental SHA-512 hasher block_hash. -/
structure SigningState where
  block_offset : Nat
  block_size_last : Nat
  block_hash : List Nat
deriving DecidableEq

/-- One emitted data block in SigningReader::Impl::process_part: when
block_offset > 0 the hasher is closed giving the previous block's chain
digest, which is signed at offset block_offset - block_size_last; the hasher
restarts from that digest and absorbs the new block's bytes.  For the first
block the block bytes are absorbed directly.  Returns the new state and the
(offset, chain digest) pair covered by the emitted ouisig, if one is emitted.
Blocks are the quantizer's outputs; the source returns before this code for
an empty block buffer. -/
def signingStep (st : SigningState) (block : List Nat) :
    SigningState × Option (Nat × List Nat) :=
  if 0 < st.block_offset then
    let d := sha512 st.block_hash
    ( ⟨st.block_offset + block.length, block.length, d ++ block⟩
    , some (st.block_offset - st.block_size_last, d) )
  else
    ( ⟨block.length, block.length, st.block_hash ++ block⟩, none )

/-- Folding signingStep over the data blocks and closing the stream:
SigningReader::Impl::process_end signs the digest of the remaining hasher
bytes at offset block_offset - block_size_last for the final zero-length
chunk. -/
def signingRunAux (st : SigningState) : List (List Nat) → List (Nat × List Nat)
  | [] => [(st.block_offset - st.block_size_last, sha512 st.block_hash)]
  | b :: bs =>
      match signingStep st b with
      | (st', none) => signingRunAux st' bs
      | (st', some p) => p :: signingRunAux st' bs

/-- The (offset, chain hash) pairs the signing reader signs for the data
blocks of a response body, in block order: SIG[i] is the Ed25519 signature of
block_sig_str injection_id offset[i] chash[i]. -/
def signingSigPairs (blocks : List (List Nat)) : List (Nat × List Nat) :=
  signingRunAux ⟨0, 0, []⟩ blocks

def chashListAux : List Nat → List (List Nat) → List (List Nat)
  | _, [] => []
  | prev, b :: bs =>
      let c := sha512 (prev ++ b)
      c :: chashListAux c bs

/-- Chain hashes as the code computes them: CHASH[0] = SHA-512(BLOCK[0]) and
CHASH[i] = SHA-512(CHASH[i-1] ‖ BLOCK[i]); the chain absorbs the raw block
bytes (source comments in both readers: HASH[i]=SHA2-512(HASH[i-1] BLOCK[i]),
HASH[0]=SHA2-512(BLOCK[0])). -/
def codeChash (blocks : List (List Nat)) : List (List Nat) := chashListAux [] blocks

def specChashAux : List Nat → List (List Nat) → List (List Nat)
  | _, [] => []
  | prev, b :: bs =>
      let c := sha512 (prev ++ sha512 b)
      c :: specChashAux c bs

/-- Chain hashes as the specification's words define them, for comparison
with the code: DHASH[i] = SHA-512(BLOCK[i]) and
CHASH[i] = SHA-512(CHASH[i-1] ‖ DHASH[i]) with CHASH[-1] empty — this chain
absorbs block digests where the code absorbs block bytes. -/
def specChash (blocks : List (List Nat)) : List (List Nat) := specChashAux [] blocks

/-- Byte offsets of the blocks: offset_of(i) is the total length of the
blocks before block i. -/
def blockOffsets : Nat → List (List Nat) → List Nat
  | _, [] => []
  | off, b :: bs => off :: blockOffsets (off + b.length) bs

/-- Chain digests VerifyingReader::Impl::process_part computes per buffered
block: the hasher holds the previous chain digest (nothing before the first
block), absorbs the block bytes and is closed; the block's ouisig is then
checked against block_sig_str(injection_id, block_offset, digest). -/
def verifyingChashAux : List Nat → List (List Nat) → List (List Nat)
  | _, [] => []
  | acc, b :: bs =>
      let d := sha512 (acc ++ b)
      d :: verifyingChashAux d bs

def verifyingChashes (blocks : List (List Nat)) : List (List Nat) :=
  verifyingChashAux [] blocks

/-- Chunk extensions emitted by the signing reader, one element per emitted
chunk, as the (sig, prev_digest) argument pair handed to block_chunk_ext:
the first chunk carries no extension; the chunk of each later block and the
final zero-length chunk carry ouisig over the previous block's signing
string; the prev_digest argument is always none because the signing reader
uses the block_chunk_ext overload that never passes one. -/
def signingExtPairs (sign : List Nat → List Nat) (injection_id : List Nat)
    (blocks : List (List Nat)) : List (Option (List Nat) × Option (List Nat)) :=
  (none, none) :: (signingSigPairs blocks).map
    (fun p => (some (sign (block_sig_str injection_id p.1 p.2)), none))

/-- Known-answer check grounding the SHA-512 model (FIPS 180 vector for
the message abc). -/
theorem sha512_abc_vector : sha512 [97, 98, 99] = [221, 175, 53, 161, 147, 97,
122, 186, 204, 65, 115, 73, 174, 32, 65, 49, 18, 230, 250, 78, 137, 169, 126,
162, 10, 158, 238, 230, 75, 85, 211, 154, 33, 146, 153, 42, 39, 79, 193, 168,
54, 186, 60, 35, 163, 254, 235, 189, 69, 77, 68, 35, 100, 60, 232, 14, 42,
154, 201, 79, 165, 76, 164, 159] := by decide

/-- Known-answer check grounding the SHA-256 model (FIPS 180 vector for
the message abc). -/
theorem sha256_abc_vector : sha256 [97, 98, 99] = [186, 120, 22, 191, 143, 1,
207, 234, 65, 65, 64, 222, 93, 174, 34, 35, 176, 3, 97, 163, 150, 23, 122,
156, 180, 16, 255, 97, 242, 0, 21, 173] := by decide

/-! ## Chain-hash lemmas shared by the claims about the codec -/

theorem signingRunAux_map_snd : ∀ (bs : List (List Nat)) (acc : List Nat) (off sz : Nat),
    0 < off →
    (signingRunAux ⟨off, sz, acc⟩ bs).map Prod.snd =
      sha512 acc :: chashListAux (sha512 acc) bs
  | [], acc, off, sz, _ => by simp [signingRunAux, chashListAux]
  | b :: bs, acc, off, sz, h => by
      have h' : 0 < off + b.length := Nat.lt_of_lt_of_le h (Nat.le_add_right _ _)
      simp only [signingRunAux, signingStep, if_pos h, List.map_cons]
      rw [signingRunAux_map_snd bs _ _ _ h']
      simp [chashListAux]

theorem signingRunAux_map_fst : ∀ (bs : List (List Nat)) (acc : List Nat) (off sz : Nat),
    0 < off →
    (signingRunAux ⟨off, sz, acc⟩ bs).map Prod.fst = (off - sz) :: blockOffsets off bs
  | [], acc, off, sz, _ => by simp [signingRunAux, blockOffsets]
  | b :: bs, acc, off, sz, h => by
      have h' : 0 < off + b.length := Nat.lt_of_lt_of_le h (Nat.le_add_right _ _)
      simp only [signingRunAux, signingStep, if_pos h, List.map_cons]
      rw [signingRunAux_map_fst bs _ _ _ h']
      simp [blockOffsets]

theorem signingSigPairs_cons (b : List Nat) (bs : List (List Nat)) :
    signingSigPairs (b :: bs) = signingRunAux ⟨b.length, b.length, b⟩ bs := by
  simp [signingSigPairs, signingRunAux, signingStep]

theorem verifyingChashAux_eq_chashListAux :
    ∀ (bs : List (List Nat)) (acc : List Nat),
      verifyingChashAux acc bs = chashListAux acc bs
  | [], _ => rfl
  | b :: bs, acc => by
      simp only [verifyingChashAux, chashListAux]
      exact congrArg _ (verifyingChashAux_eq_chashListAux bs _)

theorem verifyingChashes_eq_codeChash (blocks : List (List Nat)) :
    verifyingChashes blocks = codeChash blocks :=
  verifyingChashAux_eq_chashListAux blocks []

theorem signingSigPairs_map_snd (b : List Nat) (bs : List (List Nat)) (hb : b ≠ []) :
    (signingSigPairs (b :: bs)).map Prod.snd = codeChash (b :: bs) := by
  have hlen : 0 < b.length := List.length_pos.mpr hb
  rw [signingSigPairs_cons, signingRunAux_map_snd bs b b.length b.length hlen]
  simp [codeChash, chashListAux]

theorem signingSigPairs_map_fst (b : List Nat) (bs : List (List Nat)) (hb : b ≠ []) :
    (signingSigPairs (b :: bs)).map Prod.fst = blockOffsets 0 (b :: bs) := by
  have hlen : 0 < b.length := List.length_pos.mpr hb
  rw [signingSigPairs_cons, signingRunAux_map_fst bs b b.length b.length hlen]
  simp [blockOffsets]

theorem zip_map_fst_snd_self {α β : Type} :
    ∀ (l : List (α × β)), List.zip (l.map Prod.fst) (l.map Prod.snd) = l
  | [] => rfl
  | p :: l => by simp [List.zip, zip_map_fst_snd_self l]

theorem signingSigPairs_eq_zip (b : List Nat) (bs : List (List Nat)) (hb : b ≠ []) :
    signingSigPairs (b :: bs) =
      List.zip (blockOffsets 0 (b :: bs)) (codeChash (b :: bs)) := by
  conv_lhs => rw [← zip_map_fst_snd_self (signingSigPairs (b :: bs))]
  rw [signingSigPairs_map_fst b bs hb, signingSigPairs_map_snd b bs hb]

/-! ## Claim C1 -/

/-- C1 counterexample: for the single-block body [0x61] the chain hash that
the block signature covers is SHA-512(BLOCK[0]) in both the signing and the
verifying reader, not the specification's
CHASH[0] = SHA-512(DHASH[0]) = SHA-512(SHA-512(BLOCK[0])); so the claim that
both readers chain over block digests fails on the code. -/
theorem C1_chain_spec_counterexample :
    ¬ ((signingSigPairs [[97]]).map Prod.snd = specChash [[97]] ∧
       verifyingChashes [[97]] = specChash [[97]]) := by decide

/-- C1, amended: both the signing reader and the verifying reader chain over
raw block bytes: for every nonempty first block, the per-block chain hashes
covered by the block signatures are CHASH[0] = SHA-512(BLOCK[0]),
CHASH[i] = SHA-512(CHASH[i-1] ‖ BLOCK[i]), computed over the block bytes (not
over block digests), and the signed offsets are the cumulative block
offsets. -/
theorem C1_chain_code (b : List Nat) (bs : List (List Nat)) (hb : b ≠ []) :
    (signingSigPairs (b :: bs)).map Prod.snd = codeChash (b :: bs) ∧
    (signingSigPairs (b :: bs)).map Prod.fst = blockOffsets 0 (b :: bs) ∧
    verifyingChashes (b :: bs) = codeChash (b :: bs) :=
  ⟨signingSigPairs_map_snd b bs hb, signingSigPairs_map_fst b bs hb,
   verifyingChashes_eq_codeChash _⟩

/-- C1 witness: the amended chain equality evaluated on the concrete
two-block body [0x61], [0x62, 0x63]. -/
theorem C1_chain_code_witness :
    ([97] : List Nat) ≠ [] ∧
    ((signingSigPairs [[97], [98, 99]]).map Prod.snd = codeChash [[97], [98, 99]] ∧
     (signingSigPairs [[97], [98, 99]]).map Prod.fst = blockOffsets 0 [[97], [98, 99]] ∧
     verifyingChashes [[97], [98, 99]] = codeChash [[97], [98, 99]]) :=
  ⟨by decide, C1_chain_code [97] [[98, 99]] (by decide)⟩

/-! ## Claim C7 -/

/-- C7 counterexample: in the signing reader's output for the two-block body
[0x61], [0x62], the chunk extension emitted with the second block (index 1)
carries no ouihash argument at all — its prev_digest component is none, not
the chain hash CHASH[0] the claim requires. -/
theorem C7_ouihash_counterexample :
    ((signingExtPairs (fun _ => List.replicate 64 0) [105, 100]
        [[97], [98]]).getD 1 (none, none)).2
      ≠ some ((codeChash [[97], [98]]).getD 0 []) := by decide

/-- C7, amended: the chunk extensions the signing reader emits carry only the
ouisig parameter — the ouisig of chunk i ≥ 1 signs the previous block's
(offset, chain hash) signing string — and never an ouihash parameter: the
prev_digest argument of block_chunk_ext is none for every emitted chunk. -/
theorem C7_exts_ouisig_only (sign : List Nat → List Nat) (injection_id : List Nat)
    (b : List Nat) (bs : List (List Nat)) (hb : b ≠ []) :
    signingExtPairs sign injection_id (b :: bs) =
      (none, none) :: (List.zip (blockOffsets 0 (b :: bs)) (codeChash (b :: bs))).map
        (fun q => (some (sign (block_sig_str injection_id q.1 q.2)), none)) ∧
    ∀ p ∈ signingExtPairs sign injection_id (b :: bs), p.2 = none := by
  constructor
  · rw [signingExtPairs, signingSigPairs_eq_zip b bs hb]
  · intro p hp
    rw [signingExtPairs] at hp
    rcases List.mem_cons.mp hp with h | h
    · rw [h]
    · rcases List.mem_map.mp h with ⟨q, _, rfl⟩
      rfl

/-- C7 witness: the amended extension shape evaluated on the concrete
two-block body [0x61], [0x62] with a constant signing function. -/
theorem C7_exts_ouisig_only_witness :
    ([97] : List Nat) ≠ [] ∧
    (signingExtPairs (fun _ => List.replicate 64 0) [105, 100] [[97], [98]] =
      (none, none) :: (List.zip (blockOffsets 0 [[97], [98]]) (codeChash [[97], [98]])).map
        (fun q => (some ((fun _ => List.replicate 64 0) (block_sig_str [105, 100] q.1 q.2)), none)) ∧
     ∀ p ∈ signingExtPairs (fun _ => List.replicate 64 0) [105, 100] [[97], [98]],
       p.2 = none) :=
  ⟨by decide, C7_exts_ouisig_only (fun _ => List.replicate 64 0) [105, 100] [97] [[98]] (by decide)⟩

/-! ## The verifying reader's streaming state machine
(cache/http_sign.cpp: VerifyingReader::Impl, VerifyingReader::async_read_part).
The model covers whole (non-206) responses after a successfully verified
head: range_begin is absent, so the range-only branch that seeds the chain
from an incoming ouihash is never reached.  Ed25519 verification, which the
source calls through bs_params->pk.verify, is a function parameter. -/

/-- Decoded view of one chunk extension as the verifying reader's helpers
extract it: block_sig_from_exts (the base64-decoded ouisig value, when
present) and block_dig_from_exts (the decoded ouihash value). -/
structure ChunkExts where
  ouisig : Option (List Nat)
  ouihash : Option (List Nat)
deriving DecidableEq

/-- Input parts handed to VerifyingReader::Impl::process_part after the
head: chunk headers, chunk data, and the trailer.  The trailer is reduced to
the fields the reader uses: whether it carries signature headers (which
makes the reader re-verify the extended head) and the data-size and digest
values it adds to the head. -/
inductive VRIn where
  | chunkHdr (size : Nat) (exts : ChunkExts)
  | chunkData (data : List Nat)
  | trailer (hasSigHdrs : Bool) (dataSize : Option Nat) (digestSha256 : Option (List Nat))
deriving DecidableEq

/-- Parts the verifying reader delivers to its caller (head delivery happens
before this model starts). -/
inductive VROut where
  | chunkHdr (size : Nat) (ouisig : Option (List Nat)) (ouihash : Option (List Nat))
  | chunkBody (data : List Nat)
  | trailer
deriving DecidableEq

/-- Parameters fixed by the verified head: the block size and public key
(as a verification function) from X-Ouinet-BSigs, the injection id, the
optional signed data size and digest already present in the head, and the
verdict of http_injection_verify on the head once extended with trailer
signature headers. -/
structure VRParams where
  B : Nat
  verify : List Nat → List Nat → Bool
  injection_id : List Nat
  headDataSize : Option Nat
  headDigestSha256 : Option (List Nat)
  trailerSigsVerify : Bool

/-- State of VerifyingReader::Impl used on the chunked body path. -/
structure VRState where
  qbuf : List Nat
  block_hash : List Nat
  block_offset : Nat
  prev_block_sig : Option (List Nat)
  block_dig : Option (List Nat)
  prev_block_dig : Option (List Nat)
  body_length : Nat
  body_acc : List Nat
  dataSize : Option Nat
  digestSha256 : Option (List Nat)
deriving DecidableEq

def VRState.init (P : VRParams) : VRState :=
  ⟨[], [], 0, none, none, none, 0, [], P.headDataSize, P.headDigestSha256⟩

/-- Modelled from the spec: util::quantized_buffer::get (the class's source
file is not under src/, only its callers are).  Spec §4.5: the reader
"buffers the body into the block quantizer; when a full block is formed" it
is taken out — get yields one full block of the configured size once
buffered, else nothing. -/
def qbuf_get (B : Nat) (buf : List Nat) : List Nat × List Nat :=
  if B ≤ buf.length then (buf.take B, buf.drop B) else ([], buf)

/-- Modelled from the spec: util::quantized_buffer::get_rest yields the
remaining buffered bytes for the final, possibly shorter, block. -/
def qbuf_get_rest (buf : List Nat) : List Nat × List Nat := (buf, [])

/-- Modelled from the spec: util::quantized_buffer::put appends bytes and
raises length_error on overflow.  Spec §5: the verifying reader "never
buffers more than one block (≤ B bytes) beyond what has been verified", so
the capacity is modelled as one block beyond the one currently
extractable. -/
def qbuf_put (B : Nat) (buf data : List Nat) : Option (List Nat) :=
  if buf.length + data.length ≤ 2 * B then some (buf ++ data) else none

/-- Block extraction at a chunk header: a full block when one is buffered,
else on the final zero-size header whatever remains, else nothing yet. -/
def vrExtractBlock (B size : Nat) (qbuf : List Nat) : List Nat × List Nat :=
  let g := qbuf_get B qbuf
  if g.1.isEmpty then (if size = 0 then qbuf_get_rest qbuf else g) else g

inductive VRErr where
  | badMessage
deriving DecidableEq

/-- VerifyingReader::Impl::process_part on a chunk header: reject chunk
sizes above the block size; extract a buffered block; require the ouisig
extension; close the chain hash over the previous digest and the block
bytes and check the signature of block_sig_str(injection_id, block_offset,
digest), failing the stream on mismatch; on success rotate the signature
and digest bookkeeping and deliver the block as a chunk header (carrying
the previous block's signature and the chain digest of two blocks back)
followed by the block body. -/
def processChunkHdr (P : VRParams) (st : VRState) (size : Nat) (exts : ChunkExts) :
    Except VRErr (VRState × List VROut) :=
  if P.B < size then .error .badMessage
  else
    let eb := vrExtractBlock P.B size st.qbuf
    if eb.1.isEmpty ∧ size ≠ 0 then .ok (st, [])
    else
      match exts.ouisig with
      | none => .error .badMessage
      | some sig =>
        let block_digest := sha512 (st.block_hash ++ eb.1)
        if P.verify (block_sig_str P.injection_id st.block_offset block_digest) sig then
          let st' : VRState :=
            { st with
              qbuf := eb.2
              block_hash := block_digest
              block_offset := st.block_offset + eb.1.length
              prev_block_sig := some sig
              prev_block_dig := st.block_dig
              block_dig := some block_digest }
          if eb.1.isEmpty then .ok (st', [])
          else .ok (st', [.chunkHdr eb.1.length st.prev_block_sig st.prev_block_dig,
                          .chunkBody eb.1])
        else .error .badMessage

/-- VerifyingReader::Impl::process_part on chunk data: count the bytes,
absorb them into the whole-body hash, and buffer them, mapping the
quantizer's length_error to bad_message. -/
def processChunkData (P : VRParams) (st : VRState) (data : List Nat) :
    Except VRErr (VRState × List VROut) :=
  match qbuf_put P.B st.qbuf data with
  | none => .error .badMessage
  | some q =>
      .ok ({ st with
             body_length := st.body_length + data.length
             body_acc := st.body_acc ++ data
             qbuf := q }, [])

/-- VerifyingReader::Impl::process_part on the trailer: extend the head with
the trailer fields, re-verify the head when the trailer carries signature
headers, queue the trailer for delivery and return the final zero-length
chunk header carrying the last block's signature and the chain digest
before it. -/
def processTrailer (P : VRParams) (st : VRState) (hasSigHdrs : Bool)
    (dataSize : Option Nat) (dig : Option (List Nat)) :
    Except VRErr (VRState × List VROut) :=
  if hasSigHdrs ∧ P.trailerSigsVerify = false then .error .badMessage
  else
    let st' := { st with dataSize := st.dataSize <|> dataSize
                       , digestSha256 := st.digestSha256 <|> dig }
    .ok (st', [.chunkHdr 0 st.prev_block_sig st.prev_block_dig, .trailer])

/-- VerifyingReader::Impl::check_body: at stream end the signed length
X-Ouinet-Data-Size must equal the received body length and the signed
SHA-256 digest, when one is present, must equal the whole-body hash. -/
def checkBody (st : VRState) : Option VRErr :=
  match st.dataSize with
  | none => some .badMessage
  | some n =>
      if st.body_length ≠ n then some .badMessage
      else
        match st.digestSha256 with
        | none => none
        | some d => if sha256 st.body_acc ≠ d then some .badMessage else none

def processPart (P : VRParams) (st : VRState) : VRIn → Except VRErr (VRState × List VROut)
  | .chunkHdr size exts => processChunkHdr P st size exts
  | .chunkData data => processChunkData P st data
  | .trailer h ds dg => processTrailer P st h ds dg

/-- The read loop of VerifyingReader::async_read_part aggregated over a list
of input parts: the parts delivered to the caller, in order, and the error
reported, if any.  Processing stops at the first error (each call delivers
pending parts before reading further input, so a step's outputs precede any
later step's); when the input ends without error the underlying reader is
done and check_body runs. -/
def runVR (P : VRParams) (st : VRState) : List VRIn → List VROut × Option VRErr
  | [] => ([], checkBody st)
  | p :: ps =>
      match processPart P st p with
      | .error e => ([], some e)
      | .ok (st', outs) =>
          let r := runVR P st' ps
          (outs ++ r.1, r.2)

/-! ## Claim C2 -/

/-- C2: from any state of the verifying reader, when the next chunk header
completes a buffered data block whose ouisig fails Ed25519 verification
against the signing string built from the injection id, the block's offset
and the chain hash, then async_read_part reports bad_message and the run
delivers nothing from this step on — in particular the failing block's
bytes, which only this step could have queued as a chunk body, never reach
the caller as a chunk-body part (chunk bodies are queued only after their
signature verifies). -/
theorem C2_bad_sig_aborts (P : VRParams) (st : VRState) (size : Nat)
    (exts : ChunkExts) (rest : List VRIn) (sig block_buf qbuf' : List Nat)
    (hsize : size ≤ P.B)
    (hblk : vrExtractBlock P.B size st.qbuf = (block_buf, qbuf'))
    (hne : ¬ (block_buf.isEmpty ∧ size ≠ 0))
    (hsig : exts.ouisig = some sig)
    (hfail : P.verify (block_sig_str P.injection_id st.block_offset
               (sha512 (st.block_hash ++ block_buf))) sig = false) :
    runVR P st (VRIn.chunkHdr size exts :: rest) = ([], some VRErr.badMessage) := by
  have hlt : ¬ P.B < size := Nat.not_lt.mpr hsize
  have hstep : processChunkHdr P st size exts = .error .badMessage := by
    unfold processChunkHdr
    rw [if_neg hlt]
    simp only [hblk]
    rw [if_neg hne]
    rw [hsig]
    simp [hfail]
  simp only [runVR, processPart, hstep]

/-- C2 witness: a reader with block size 4 and a buffered final block
[1, 2, 3], whose verification function rejects every signature, errors with
bad_message on the final chunk header and delivers no part at all. -/
theorem C2_bad_sig_aborts_witness :
    (0 : Nat) ≤ (4 : Nat) ∧
    vrExtractBlock 4 0 [1, 2, 3] = ([1, 2, 3], []) ∧
    ¬ (([1, 2, 3] : List Nat).isEmpty ∧ (0 : Nat) ≠ 0) ∧
    ChunkExts.ouisig ⟨some (List.replicate 64 0), none⟩ = some (List.replicate 64 0) ∧
    runVR ⟨4, fun _ _ => false, [105], some 3, none, true⟩
      ⟨[1, 2, 3], [], 0, none, none, none, 0, [], some 3, none⟩
      [VRIn.chunkHdr 0 ⟨some (List.replicate 64 0), none⟩] =
      ([], some VRErr.badMessage) :=
  ⟨by decide, by decide, by decide, rfl,
   C2_bad_sig_aborts ⟨4, fun _ _ => false, [105], some 3, none, true⟩
     ⟨[1, 2, 3], [], 0, none, none, none, 0, [], some 3, none⟩
     0 ⟨some (List.replicate 64 0), none⟩ [] (List.replicate 64 0) [1, 2, 3] []
     (by decide) (by decide) (by decide) rfl rfl⟩

/-! ## Bencoding and the DHT node's inbound query handlers
(bittorrent/bencoding.h, bittorrent/dht.cpp: dht::DhtNode::handle_query) -/

/-- BencodedValue: the four DHT wire types; dictionaries are key-ordered
maps, modelled as association lists. -/
inductive Bencoded where
  | int (n : Int)
  | str (s : List Nat)
  | lst (l : List Bencoded)
  | dct (d : List (List Nat × Bencoded))

def intBytes (n : Int) : List Nat :=
  if n < 0 then 45 :: decimalBytes n.natAbs else decimalBytes n.toNat

/-- bencoding_encode, with an explicit recursion-depth fuel so that the
recursion through the nested lists stays kernel-computable.  The fuel bound
2^32 exceeds the nesting depth of any value a DHT message can carry (a
bencoded value of depth d is at least d bytes long, and message values are
three orders of magnitude below the bound), so the zero-fuel branch is
unreachable on the modelled domain. -/
def bencodingEncodeAux : Nat → Bencoded → List Nat
  | 0, _ => []
  | _+1, .int n => [105] ++ intBytes n ++ [101]
  | _+1, .str s => decimalBytes s.length ++ [58] ++ s
  | f+1, .lst l => [108] ++ (l.map (bencodingEncodeAux f)).flatten ++ [101]
  | f+1, .dct d =>
      [100] ++ (d.map (fun kv =>
        bencodingEncodeAux f (.str kv.1) ++ bencodingEncodeAux f kv.2)).flatten ++ [101]

def bencoding_encode (v : Bencoded) : List Nat := bencodingEncodeAux 4294967296 v

/-- MutableDataItem (bittorrent/mutable_data.h): a stored BEP-44 mutable
item. -/
structure MutableDataItem where
  public_key : List Nat
  salt : List Nat
  value : Bencoded
  sequence_number : Int
  signature : List Nat

/-- Outcome of an inbound put: the reply sent by send_reply (an empty result
map) or the error code sent by send_error. -/
inductive QueryReply where
  | reply
  | error (code : Nat)
deriving DecidableEq

/-- Arguments of an inbound put query after bdecoding; absent message fields
are none. -/
structure PutArgs where
  token : Option (List Nat)
  v : Option Bencoded
  k : Option (List Nat)
  sig : Option (List Nat)
  seq : Option Int
  salt : Option (List Nat)
  cas : Option Int

/-- dht::DhtNode::handle_query, put branch: token and value presence checks,
the BEP-44 size gate (rejecting with 205 when the bencoding reaches 1000
bytes), then for a mutable item (k present) the argument validation (203/207),
the token check (203), the responsibility check (201), the Ed25519
signature check (206) and the sequence/CAS logic (302/301) against the
stored item.  External verdicts are parameters: token_ok for
verify_token, responsible for the closest-known-nodes test, sig_ok for
MutableDataItem::verify.  Returns the reply or error sent together with the
mutable item stored under the target key afterwards (an immutable put goes
to the immutable store and leaves it untouched). -/
def handlePut (args : PutArgs) (stored : Option MutableDataItem)
    (token_ok responsible sig_ok : Bool) : QueryReply × Option MutableDataItem :=
  match args.token with
  | none => (.error 203, stored)
  | some _ =>
    match args.v with
    | none => (.error 203, stored)
    | some v =>
      if 1000 ≤ (bencoding_encode v).length then (.error 205, stored)
      else
        match args.k with
        | some k =>
          if k.length ≠ 32 then (.error 203, stored)
          else
            match args.sig with
            | none => (.error 203, stored)
            | some sg =>
              if sg.length ≠ 64 then (.error 203, stored)
              else
                match args.seq with
                | none => (.error 203, stored)
                | some seq =>
                  if 64 < (args.salt.getD []).length then (.error 207, stored)
                  else if token_ok = false then (.error 203, stored)
                  else if responsible = false then (.error 201, stored)
                  else if sig_ok = false then (.error 206, stored)
                  else
                    let item : MutableDataItem := ⟨k, args.salt.getD [], v, seq, sg⟩
                    match stored with
                    | some ex =>
                      if seq < ex.sequence_number then (.error 302, stored)
                      else if seq = ex.sequence_number ∧
                          bencoding_encode v ≠ bencoding_encode ex.value then
                        (.error 302, stored)
                      else
                        match args.cas with
                        | some c =>
                            if c ≠ ex.sequence_number then (.error 301, stored)
                            else (.reply, some item)
                        | none => (.reply, some item)
                    | none => (.reply, some item)
        | none =>
          if token_ok = false then (.error 203, stored)
          else if responsible = false then (.error 201, stored)
          else (.reply, stored)

/-- Reply record of the get branch of dht::DhtNode::handle_query: nodes and
a fresh token are always set; v alone for an immutable hit; k, seq, sig and
v for a mutable item. -/
structure GetReply where
  hasNodes : Bool
  hasToken : Bool
  k : Option (List Nat)
  seq : Option Int
  sig : Option (List Nat)
  v : Option Bencoded

/-- dht::DhtNode::handle_query, get branch: nodes and a token always; with
no seq argument an immutable value stored at the target is returned
directly; otherwise, when a mutable item is stored, the reply is bare when a
seq argument is present and at most the stored sequence number, and carries
the item fields k, seq, sig, v otherwise. -/
def handleGet (immutable_value : Option Bencoded)
    (mutable_item : Option MutableDataItem) (seq_arg : Option Int) : GetReply :=
  let base : GetReply := ⟨true, true, none, none, none, none⟩
  match seq_arg, immutable_value with
  | none, some v => { base with v := some v }
  | _, _ =>
    match mutable_item with
    | none => base
    | some it =>
      let full : GetReply :=
        { base with k := some it.public_key, seq := some it.sequence_number
                  , sig := some it.signature, v := some it.value }
      match seq_arg with
      | some s => if s ≤ it.sequence_number then base else full
      | none => full

def dctLookup (d : List (List Nat × Bencoded)) (key : List Nat) : Option Bencoded :=
  match d with
  | [] => none
  | (k, v) :: rest => if k = key then some v else dctLookup rest key

def dctSet (d : List (List Nat × Bencoded)) (key : List Nat) (val : Bencoded) :
    List (List Nat × Bencoded) :=
  match d with
  | [] => [(key, val)]
  | (k, v) :: rest => if k = key then (key, val) :: rest else (k, v) :: dctSet rest key val

def msgLookup (m : Bencoded) (key : List Nat) : Option Bencoded :=
  match m with
  | .dct d => dctLookup d key
  | _ => none

/-- send_reply in dht::DhtNode::handle_query: the reply map gets the node's
id and is wrapped as a message with y = "r" (byte 114) and the query's
transaction under t — but the result map itself is placed under key e
(byte 101), not under r.  (BencodedMap is key-sorted on the wire; the model
keeps insertion order, which the key lookups the claims use do not see.) -/
def send_reply_msg (node_id transaction : List Nat)
    (reply : List (List Nat × Bencoded)) : Bencoded :=
  .dct [([121], .str [114]), ([116], .str transaction),
        ([101], .dct (dctSet reply [105, 100] (.str node_id)))]

/-- send_error in dht::DhtNode::handle_query: y = "e", the transaction under
t, and the [code, description] list under e. -/
def send_error_msg (transaction : List Nat) (code : Int) (description : List Nat) :
    Bencoded :=
  .dct [([121], .str [101]), ([116], .str transaction),
        ([101], .lst [.int code, .str description])]

/-- The ping branch of handle_query replies with an empty result map. -/
def handlePing (node_id transaction : List Nat) : Bencoded :=
  send_reply_msg node_id transaction []

/-- Key under which the node's own reply processing reads a peer's reply
dictionary (query_get_data3 and the other senders read get_reply["r"]). -/
def reply_dict_key : List Nat := [114]

/-- Reduction of the put handler to its sequence/CAS core once the request
is well-formed and the token, responsibility and signature checks pass. -/
theorem handlePut_core (args : PutArgs) (ex : MutableDataItem)
    (tok k sg : List Nat) (v : Bencoded) (seq : Int)
    (htok : args.token = some tok)
    (hv : args.v = some v)
    (hsize : (bencoding_encode v).length < 1000)
    (hk : args.k = some k) (hklen : k.length = 32)
    (hsg : args.sig = some sg) (hsglen : sg.length = 64)
    (hseq : args.seq = some seq)
    (hsalt : (args.salt.getD []).length ≤ 64) :
    handlePut args (some ex) true true true =
      (if seq < ex.sequence_number then (.error 302, some ex)
       else if seq = ex.sequence_number ∧
              bencoding_encode v ≠ bencoding_encode ex.value then
         (.error 302, some ex)
       else
         match args.cas with
         | some c =>
             if c ≠ ex.sequence_number then (.error 301, some ex)
             else (.reply, some ⟨k, args.salt.getD [], v, seq, sg⟩)
         | none => (.reply, some ⟨k, args.salt.getD [], v, seq, sg⟩)) := by
  simp only [handlePut, htok, hv, hk, hsg, hseq]
  rw [if_neg (Nat.not_le.mpr hsize)]
  rw [if_neg (by simp [hklen])]
  rw [if_neg (by simp [hsglen])]
  rw [if_neg (Nat.not_lt.mpr hsalt)]
  simp only [if_neg (by simp : ¬ (true = false))]

/-! ## Claim C3 -/

set_option maxHeartbeats 1600000

/-- C3: for an inbound mutable put on a key already storing an item (with a
well-formed request passing the token, responsibility and signature checks):
a lower sequence number is rejected with 302 and the store is unchanged; an
equal sequence number with a different bencoded value is rejected with 302;
a cas argument differing from the stored sequence number (in the cases the
sequence checks do not already reject) is rejected with 301; a higher
sequence number whose cas, when given, matches replaces the stored item; and
for every request whatsoever the stored sequence number never decreases. -/
theorem C3_put_seq_cas (args : PutArgs) (ex : MutableDataItem)
    (tok k sg : List Nat) (v : Bencoded) (seq : Int)
    (htok : args.token = some tok)
    (hv : args.v = some v)
    (hsize : (bencoding_encode v).length < 1000)
    (hk : args.k = some k) (hklen : k.length = 32)
    (hsg : args.sig = some sg) (hsglen : sg.length = 64)
    (hseq : args.seq = some seq)
    (hsalt : (args.salt.getD []).length ≤ 64) :
    (seq < ex.sequence_number →
       handlePut args (some ex) true true true = (.error 302, some ex)) ∧
    (seq = ex.sequence_number → bencoding_encode v ≠ bencoding_encode ex.value →
       handlePut args (some ex) true true true = (.error 302, some ex)) ∧
    (ex.sequence_number ≤ seq →
     (seq = ex.sequence_number → bencoding_encode v = bencoding_encode ex.value) →
     ∀ c, args.cas = some c → c ≠ ex.sequence_number →
       handlePut args (some ex) true true true = (.error 301, some ex)) ∧
    (ex.sequence_number < seq →
     (∀ c, args.cas = some c → c = ex.sequence_number) →
       handlePut args (some ex) true true true =
         (.reply, some ⟨k, args.salt.getD [], v, seq, sg⟩)) ∧
    (∀ (args' : PutArgs) (t r s : Bool) (it' : MutableDataItem),
       (handlePut args' (some ex) t r s).2 = some it' →
       ex.sequence_number ≤ it'.sequence_number) := by
  have hc := handlePut_core args ex tok k sg v seq htok hv hsize hk hklen hsg hsglen
    hseq hsalt
  refine ⟨?_, ?_, ?_, ?_, ?_⟩
  · intro hlt
    rw [hc, if_pos hlt]
  · intro heq hne
    rw [hc, if_neg (by rw [heq]; exact lt_irrefl _), if_pos ⟨heq, hne⟩]
  · intro hle hsame c hcas hne
    rw [hc, if_neg (not_lt.mpr hle), if_neg (by rintro ⟨h1, h2⟩; exact h2 (hsame h1)),
       hcas]
    simp [hne]
  · intro hgt hcas
    rw [hc, if_neg (not_lt.mpr hgt.le),
       if_neg (by rintro ⟨h1, _⟩; exact absurd h1.symm hgt.ne)]
    cases hc2 : args.cas with
    | none => rfl
    | some c =>
        have heq := hcas c hc2
        subst heq
        simp
  · intro args' t r s it' h
    unfold handlePut at h
    repeat' split at h
    all_goals simp_all
    all_goals first
      | omega
      | (subst h; dsimp only; omega)

/-- C3 witness: the sequence/CAS behaviour evaluated for a stored item with
sequence number 5 and a put of sequence number 6 with cas 5. -/
theorem C3_put_seq_cas_witness :
    ((6 : Int) < (5 : Int) →
       handlePut ⟨some [], some (.int 1), some (List.replicate 32 1),
           some (List.replicate 64 2), some 6, none, some 5⟩
         (some ⟨List.replicate 32 1, [], .int 0, 5, List.replicate 64 2⟩) true true true =
         (.error 302, some ⟨List.replicate 32 1, [], .int 0, 5, List.replicate 64 2⟩)) ∧
    ((6 : Int) = (5 : Int) →
       bencoding_encode (.int 1) ≠ bencoding_encode (.int 0) →
       handlePut ⟨some [], some (.int 1), some (List.replicate 32 1),
           some (List.replicate 64 2), some 6, none, some 5⟩
         (some ⟨List.replicate 32 1, [], .int 0, 5, List.replicate 64 2⟩) true true true =
         (.error 302, some ⟨List.replicate 32 1, [], .int 0, 5, List.replicate 64 2⟩)) ∧
    ((5 : Int) ≤ (6 : Int) →
     ((6 : Int) = (5 : Int) → bencoding_encode (.int 1) = bencoding_encode (.int 0)) →
     ∀ c, (⟨some [], some (.int 1), some (List.replicate 32 1),
           some (List.replicate 64 2), some 6, none, some 5⟩ : PutArgs).cas = some c →
       c ≠ (5 : Int) →
       handlePut ⟨some [], some (.int 1), some (List.replicate 32 1),
           some (List.replicate 64 2), some 6, none, some 5⟩
         (some ⟨List.replicate 32 1, [], .int 0, 5, List.replicate 64 2⟩) true true true =
         (.error 301, some ⟨List.replicate 32 1, [], .int 0, 5, List.replicate 64 2⟩)) ∧
    ((5 : Int) < (6 : Int) →
     (∀ c, (⟨some [], some (.int 1), some (List.replicate 32 1),
           some (List.replicate 64 2), some 6, none, some 5⟩ : PutArgs).cas = some c →
        c = (5 : Int)) →
       handlePut ⟨some [], some (.int 1), some (List.replicate 32 1),
           some (List.replicate 64 2), some 6, none, some 5⟩
         (some ⟨List.replicate 32 1, [], .int 0, 5, List.replicate 64 2⟩) true true true =
         (.reply, some ⟨List.replicate 32 1,
            ((none : Option (List Nat)).getD []), .int 1, 6, List.replicate 64 2⟩)) ∧
    (∀ (args' : PutArgs) (t r s : Bool) (it' : MutableDataItem),
       (handlePut args' (some ⟨List.replicate 32 1, [], .int 0, 5,
           List.replicate 64 2⟩) t r s).2 = some it' →
       (5 : Int) ≤ it'.sequence_number) :=
  C3_put_seq_cas
    ⟨some [], some (.int 1), some (List.replicate 32 1), some (List.replicate 64 2),
     some 6, none, some 5⟩
    ⟨List.replicate 32 1, [], .int 0, 5, List.replicate 64 2⟩
    [] (List.replicate 32 1) (List.replicate 64 2) (.int 1) 6
    rfl rfl (by decide) rfl (by decide) rfl (by decide) rfl (by decide)

set_option maxHeartbeats 400000

/-! ## Claim C4 -/

/-- C4 failing input evaluated (the claim is right and the code has the
comparison reversed): for a target storing a mutable item with sequence
number 5, a get carrying seq 3 < 5 is answered without the item fields —
the handler omits them whenever the requested seq is at most the stored one
and includes them only when the requested seq exceeds it, the reverse of
the claim's (and BEP-44's) direction, as the reply to seq 7 > 5 shows; with
no seq argument the item fields are included. -/
theorem C4_get_seq_reversed :
    ((3 : Int) < 5 ∧ (5 : Int) < 7) ∧
    (handleGet none (some ⟨List.replicate 32 1, [], .int 0, 5, List.replicate 64 2⟩)
       (some 3)).v = none ∧
    (handleGet none (some ⟨List.replicate 32 1, [], .int 0, 5, List.replicate 64 2⟩)
       (some 3)).k = none ∧
    (handleGet none (some ⟨List.replicate 32 1, [], .int 0, 5, List.replicate 64 2⟩)
       (some 7)).v = some (.int 0) ∧
    (handleGet none (some ⟨List.replicate 32 1, [], .int 0, 5, List.replicate 64 2⟩)
       none).v = some (.int 0) ∧
    (handleGet (some (.int 9)) none none).v = some (.int 9) :=
  ⟨by decide, rfl, rfl, rfl, rfl, rfl⟩

/-! ## Claim C5 -/

/-- C5 failing input evaluated (the claim is right and the code mislabels
the reply): the non-error reply handle_query sends — here to a ping — is a
bencoded dictionary with y = "r" and the transaction under t, but the result
dictionary with the node's id travels under key e, colliding with the error
key, and no r key exists at all, while the node's own reply processing reads
reply dictionaries under r; error replies do carry [code, text] under e. -/
theorem C5_reply_under_e (node_id transaction description : List Nat) :
    msgLookup (handlePing node_id transaction) reply_dict_key = none ∧
    msgLookup (handlePing node_id transaction) [101] =
      some (.dct [([105, 100], .str node_id)]) ∧
    msgLookup (handlePing node_id transaction) [121] = some (.str [114]) ∧
    msgLookup (handlePing node_id transaction) [116] = some (.str transaction) ∧
    msgLookup (send_error_msg transaction 203 description) [101] =
      some (.lst [.int 203, .str description]) ∧
    msgLookup (send_error_msg transaction 203 description) [121] =
      some (.str [101]) :=
  ⟨rfl, rfl, rfl, rfl, rfl, rfl⟩

/-! ## Claim C8 -/

/-- C8 counterexample: a value whose bencoding is exactly 1000 bytes long — a
996-byte string, encoded as the four ASCII bytes 996: followed by the bytes —
is within the claim's at-most-1000-byte allowance yet the put handler
answers error 205, because the size gate rejects at ≥ 1000 rather than
> 1000. -/
theorem C8_size_gate_counterexample :
    (bencoding_encode (Bencoded.str (List.replicate 996 97))).length ≤ 1000 ∧
    (handlePut ⟨some [], some (.str (List.replicate 996 97)), none, none, none,
        none, none⟩ none true true true).1 = QueryReply.error 205 := by
  constructor <;> decide

/-- C8, amended: the size gate of the put handler rejects with error 205
exactly the values whose bencoding is 1000 bytes or longer: a value whose
bencoding is strictly shorter than 1000 bytes is never answered with 205,
and one of 1000 bytes or more always is (once token and value are
present). -/
theorem C8_size_gate (args : PutArgs) (stored : Option MutableDataItem)
    (token_ok responsible sig_ok : Bool) (tok : List Nat) (v : Bencoded)
    (htok : args.token = some tok) (hv : args.v = some v) :
    ((bencoding_encode v).length < 1000 →
      (handlePut args stored token_ok responsible sig_ok).1 ≠ QueryReply.error 205) ∧
    (1000 ≤ (bencoding_encode v).length →
      (handlePut args stored token_ok responsible sig_ok).1 = QueryReply.error 205) := by
  simp only [handlePut, htok, hv]
  constructor
  · intro h
    rw [if_neg (Nat.not_le.mpr h)]
    repeat' split
    all_goals simp
  · intro h
    rw [if_pos h]

/-- C8 witness: the size gate evaluated at the 3-byte value i1e (passes) and
at a 1005-byte string value (rejected with 205). -/
theorem C8_size_gate_witness :
    (((bencoding_encode (Bencoded.int 1)).length < 1000 →
       (handlePut ⟨some [], some (.int 1), none, none, none, none, none⟩
          none true true true).1 ≠ QueryReply.error 205) ∧
     (1000 ≤ (bencoding_encode (Bencoded.int 1)).length →
       (handlePut ⟨some [], some (.int 1), none, none, none, none, none⟩
          none true true true).1 = QueryReply.error 205)) ∧
    (((bencoding_encode (Bencoded.str (List.replicate 1000 97))).length < 1000 →
       (handlePut ⟨some [], some (.str (List.replicate 1000 97)), none, none, none,
          none, none⟩ none true true true).1 ≠ QueryReply.error 205) ∧
     (1000 ≤ (bencoding_encode (Bencoded.str (List.replicate 1000 97))).length →
       (handlePut ⟨some [], some (.str (List.replicate 1000 97)), none, none, none,
          none, none⟩ none true true true).1 = QueryReply.error 205)) :=
  ⟨C8_size_gate ⟨some [], some (.int 1), none, none, none, none, none⟩
     none true true true [] (Bencoded.int 1) rfl rfl,
   C8_size_gate ⟨some [], some (.str (List.replicate 1000 97)), none, none, none,
       none, none⟩
     none true true true [] (Bencoded.str (List.replicate 1000 97)) rfl rfl⟩

/-! ## Adaptive reply statistics and the query reply timeout
(bittorrent/dht.cpp: class Stat, dht::DhtNode::send_query_await_reply).
Reply times are modelled in seconds as rationals; the floating-point square
root the source takes of the rolling variance is kept as the parameter dev
(the rolling standard deviation), since every proved fact about the result
holds for any value of it. -/

/-- The samples retained by the boost accumulator set, constructed with
rolling_window::window_size = 10: the last 10 reply times. -/
def rolling_window (samples : List ℚ) : List ℚ :=
  samples.drop (samples.length - 10)

def rolling_count (samples : List ℚ) : Nat := (rolling_window samples).length

def rolling_mean (samples : List ℚ) : ℚ :=
  (rolling_window samples).sum / rolling_count samples

/-- Stat::mean_plus_deviation: nothing while the window holds fewer than 5
samples, else the rolling mean plus deviation_multiply standard
deviations. -/
def mean_plus_deviation (samples : List ℚ) (dev deviation_multiply : ℚ) : Option ℚ :=
  if rolling_count samples < 5 then none
  else some (rolling_mean samples + deviation_multiply * dev)

/-- Stat::default_max_reply_wait_time: 3 seconds. -/
def default_max_reply_wait_time : ℚ := 3

/-- Stat::max_reply_wait_time: mean + 3σ, clamped from above by the
3-second default, and the default itself while mean_plus_deviation yields
nothing. -/
def max_reply_wait_time (samples : List ℚ) (dev : ℚ) : ℚ :=
  match mean_plus_deviation samples dev 3 with
  | none => default_max_reply_wait_time
  | some ov => min ov default_max_reply_wait_time

/-- send_query_await_reply: the timer bounding the wait for this query's
reply is started with a fixed 10 seconds (the line deriving it from
Stat::max_reply_wait_time is commented out; the adaptive value is only used
to push out the caller-supplied watchdog's deadline). -/
def send_query_await_reply_timeout : ℚ := 10

/-! ## Claim C6 -/

/-- C6 counterexample: with no samples recorded the claimed per-query
timeout would be the 3-second default, but the reply timer of
send_query_await_reply is a fixed 10 seconds — both different from the
claimed value and beyond the 3 seconds the claim says no query ever waits. -/
theorem C6_fixed_timeout_counterexample :
    send_query_await_reply_timeout ≠ max_reply_wait_time [] 0 ∧
    ¬ (send_query_await_reply_timeout ≤ 3) := by
  constructor <;> norm_num [send_query_await_reply_timeout, max_reply_wait_time,
    mean_plus_deviation, rolling_count, rolling_window, default_max_reply_wait_time]

/-- C6, amended: Stat::max_reply_wait_time is the rolling mean plus three
standard deviations over the last 10 reply times, clamped so it never
exceeds the 3-second default and equal to that default while fewer than 5
samples exist — but this value only extends the caller's watchdog deadline;
the timer bounding the wait for the reply itself is a fixed 10 seconds, so
a query may wait up to 10 s (not 3 s) for its reply. -/
theorem C6_stat_clamped (samples : List ℚ) (dev : ℚ) :
    max_reply_wait_time samples dev ≤ 3 ∧
    (rolling_count samples < 5 → max_reply_wait_time samples dev = 3) ∧
    send_query_await_reply_timeout = 10 := by
  refine ⟨?_, ?_, rfl⟩
  · unfold max_reply_wait_time mean_plus_deviation default_max_reply_wait_time
    split
    · exact le_refl _
    · exact min_le_right _ _
  · intro h
    unfold max_reply_wait_time mean_plus_deviation default_max_reply_wait_time
    rw [if_pos h]

/-- C6 witness: the clamp evaluated with an empty sample history. -/
theorem C6_stat_clamped_witness :
    rolling_count [] < 5 ∧ max_reply_wait_time [] 0 = 3 :=
  ⟨by decide, (C6_stat_clamped [] 0).2.1 (by decide)⟩

/-! ## Local store commits (util/atomic_file.h, util/file_io.cpp:
temp_file::close, mktemp, atomic_file::commit, mkatomic).  The directory
tree is a finite map from paths — component lists — to file contents. -/

abbrev FsPath := List Nat

abbrev Fs := List (FsPath × List Nat)

def fsLookup (fs : Fs) (p : FsPath) : Option (List Nat) :=
  match fs with
  | [] => none
  | (q, c) :: rest => if q = p then some c else fsLookup rest p

/-- fs::remove (through remove_file, which ignores errors). -/
def fsRemove (fs : Fs) (p : FsPath) : Fs :=
  match fs with
  | [] => []
  | (q, c) :: rest => if q = p then fsRemove rest p else (q, c) :: fsRemove rest p

def fsSet (fs : Fs) (p : FsPath) (content : List Nat) : Fs :=
  (p, content) :: fsRemove fs p

/-- temp_file: the open temporary file and its keep-on-close flag. -/
structure TempFileRec where
  path : FsPath
  keep_on_close : Bool
deriving DecidableEq

/-- temp_file::close: the descriptor is closed and, unless keep-on-close is
set, the file is removed. -/
def temp_close (fs : Fs) (t : TempFileRec) : Fs :=
  if t.keep_on_close then fs else fsRemove fs t.path

/-- atomic_file: the temporary file being written and the final path it
will be renamed onto. -/
structure AtomicFileRec where
  temp : TempFileRec
  path : FsPath
deriving DecidableEq

/-- mkatomic: mktemp creates the temporary file inside the final path's
parent directory (path.parent_path()), keep-on-close clear. -/
def mkatomic (fs : Fs) (path : FsPath) (temp_name : Nat) : Fs × AtomicFileRec :=
  let tpath := path.dropLast ++ [temp_name]
  (fsSet fs tpath [], ⟨⟨tpath, false⟩, path⟩)

/-- Appending bytes to the atomic file's temporary file (file_io::write on
its descriptor). -/
def atomic_write (fs : Fs) (af : AtomicFileRec) (data : List Nat) : Fs :=
  fsSet fs af.temp.path ((fsLookup fs af.temp.path).getD [] ++ data)

/-- fs::rename: on success the source is moved onto the destination; on
failure (rename_ok false, ec set) the tree is unchanged. -/
def fsRename (fs : Fs) (src dst : FsPath) (rename_ok : Bool) : Fs :=
  if rename_ok then
    match fsLookup fs src with
    | some content => fsSet (fsRemove fs src) dst content
    | none => fs
  else fs

/-- atomic_file::commit: set keep-on-close, close the temporary file (kept
in place), rename it onto the final path, then clear keep-on-close again so
that destruction after a failed commit removes the temporary file.  No
fsync is issued by commit or anywhere else in file_io.cpp. -/
def atomic_commit (fs : Fs) (af : AtomicFileRec) (rename_ok : Bool) :
    Fs × AtomicFileRec :=
  let fs1 := temp_close fs ⟨af.temp.path, true⟩
  (fsRename fs1 af.temp.path af.path rename_ok, ⟨⟨af.temp.path, false⟩, af.path⟩)

/-- Destroying the atomic file without a successful commit: temp_file::close
runs with keep-on-close clear, removing the temporary file. -/
def atomic_destroy (fs : Fs) (af : AtomicFileRec) : Fs := temp_close fs af.temp

/-- The observable file operations atomic_file::commit performs, in source
order: closing the temporary file, then fs::rename onto the final path. -/
inductive FileOp where
  | closeTemp
  | fsyncTemp
  | renameTempToFinal
deriving DecidableEq

def atomic_commit_ops : List FileOp := [.closeTemp, .renameTempToFinal]

theorem fsLookup_fsRemove (fs : Fs) (p q : FsPath) :
    fsLookup (fsRemove fs p) q = if q = p then none else fsLookup fs q := by
  induction fs with
  | nil => simp [fsRemove, fsLookup]
  | cons kv rest ih =>
      obtain ⟨r, c⟩ := kv
      simp only [fsRemove, fsLookup]
      by_cases hrp : r = p <;> by_cases hrq : r = q <;> by_cases hqp : q = p <;>
        simp_all [fsLookup]

theorem fsLookup_fsSet (fs : Fs) (p q : FsPath) (c : List Nat) :
    fsLookup (fsSet fs p c) q = if q = p then some c else fsLookup fs q := by
  unfold fsSet
  simp only [fsLookup, fsLookup_fsRemove]
  by_cases h : q = p
  · subst h; simp
  · have h' : ¬ p = q := fun hh => h hh.symm
    simp [h, h']

/-! ## Claim C9 -/

/-- C9 counterexample: the commit of an atomic file closes the temporary
file and renames it onto the final path — no fsync is issued before the
rename (or at all), so the claimed write-fsync-rename sequence fails on the
code at its fsync step. -/
theorem C9_commit_no_fsync : FileOp.fsyncTemp ∉ atomic_commit_ops := by decide

/-- C9, amended: every local-store entry is committed by writing to a
temporary file in the same directory as the final path and renaming it onto
the final name, with no fsync: the temporary file is created in the final
path's directory; writing to the atomic file never creates or modifies the
final path; a successful commit makes the final path hold exactly the
written bytes and removes the temporary name; a failed rename leaves the
tree unchanged; and destruction without a successful commit removes the
temporary file and leaves the final path untouched. -/
theorem C9_atomic_commit_semantics (fs : Fs) (path : FsPath) (temp_name : Nat)
    (af : AtomicFileRec) (data content : List Nat)
    (hne : af.temp.path ≠ af.path) :
    ((mkatomic fs path temp_name).2.temp.path.dropLast = path.dropLast ∧
     (mkatomic fs path temp_name).2.temp.keep_on_close = false) ∧
    fsLookup (atomic_write fs af data) af.path = fsLookup fs af.path ∧
    (fsLookup fs af.temp.path = some content →
      fsLookup (atomic_commit fs af true).1 af.path = some content ∧
      fsLookup (atomic_commit fs af true).1 af.temp.path = none) ∧
    (atomic_commit fs af false).1 = fs ∧
    (af.temp.keep_on_close = false →
      fsLookup (atomic_destroy fs af) af.temp.path = none ∧
      fsLookup (atomic_destroy fs af) af.path = fsLookup fs af.path) := by
  refine ⟨⟨?_, rfl⟩, ?_, ?_, ?_, ?_⟩
  · simp [mkatomic, List.dropLast_concat]
  · unfold atomic_write
    rw [fsLookup_fsSet, if_neg (fun h => hne h.symm)]
  · intro hc
    unfold atomic_commit fsRename temp_close
    simp [hc, fsLookup_fsSet, fsLookup_fsRemove, hne]
  · unfold atomic_commit fsRename temp_close
    simp
  · intro hk
    unfold atomic_destroy temp_close
    simp [hk, fsLookup_fsRemove, hne, Ne.symm hne]

/-- C9 witness: the commit semantics evaluated on a one-file tree with the
temporary name 7 next to the final path [1, 2]. -/
theorem C9_atomic_commit_semantics_witness :
    ((mkatomic [] [1, 2] 7).2.temp.path.dropLast = ([1, 2] : FsPath).dropLast ∧
     (mkatomic [] [1, 2] 7).2.temp.keep_on_close = false) ∧
    fsLookup (atomic_write [([1, 7], [])] ⟨⟨[1, 7], false⟩, [1, 2]⟩ [9]) [1, 2] =
      fsLookup [([1, 7], [])] [1, 2] ∧
    (fsLookup [([1, 7], [])] ([1, 7] : FsPath) = some [] →
      fsLookup (atomic_commit [([1, 7], [])] ⟨⟨[1, 7], false⟩, [1, 2]⟩ true).1 [1, 2] =
        some [] ∧
      fsLookup (atomic_commit [([1, 7], [])] ⟨⟨[1, 7], false⟩, [1, 2]⟩ true).1 [1, 7] =
        none) ∧
    (atomic_commit [([1, 7], [])] ⟨⟨[1, 7], false⟩, [1, 2]⟩ false).1 = [([1, 7], [])] ∧
    ((⟨⟨[1, 7], false⟩, [1, 2]⟩ : AtomicFileRec).temp.keep_on_close = false →
      fsLookup (atomic_destroy [([1, 7], [])] ⟨⟨[1, 7], false⟩, [1, 2]⟩) [1, 7] = none ∧
      fsLookup (atomic_destroy [([1, 7], [])] ⟨⟨[1, 7], false⟩, [1, 2]⟩) [1, 2] =
        fsLookup [([1, 7], [])] [1, 2]) :=
  C9_atomic_commit_semantics [([1, 7], [])] [1, 2] 7 ⟨⟨[1, 7], false⟩, [1, 2]⟩ [9] []
    (by decide)

/-! ## The inner parsing loop of HashList::load (cache/hash_list.cpp) -/

def MAX_LINE_SIZE_BYTES : Nat := 512

/-- The magic line OUINET_HASH_LIST_V1, as bytes. -/
def hashListMagic : List Nat :=
  ("OUINET_HASH_LIST_V1").toList.map Char.toNat

/-- Parser::read_line: the bytes before the first newline and the bytes
after it, or nothing when the buffer holds no newline. -/
def read_line : List Nat → Option (List Nat × List Nat)
  | [] => none
  | b :: rest =>
      if b = 10 then some ([], rest)
      else
        match read_line rest with
        | none => none
        | some (l, r) => some (b :: l, r)

/-- Parser::read_array<N> (read_signature and read_hash use N = 64): the
first N buffered bytes and the rest, or nothing when fewer are buffered. -/
def read_array (n : Nat) (buf : List Nat) : Option (List Nat × List Nat) :=
  if n ≤ buf.length then some (buf.take n, buf.drop n) else none

/-- State of the inner while(true) of HashList::load: the parser buffer, the
magic flag, the signature and hash accumulation — and the progress flag,
which the source declares before entering the loop, so it is never reset
between iterations. -/
structure HLState where
  buffer : List Nat
  magic_checked : Bool
  signature : Option (List Nat)
  hashes : List (List Nat)
  progress : Bool
deriving DecidableEq

/-- The tail of each iteration of the inner loop: only when progress has
never been recorded is the buffer checked against MAX_LINE_SIZE_BYTES, and
an oversized one ends load with bad_message; otherwise the loop body ends
and the loop runs again — the body contains no break. -/
def hashListCheckStall (st : HLState) : Except Unit HLState :=
  if st.progress = false ∧ MAX_LINE_SIZE_BYTES < st.buffer.length then .error ()
  else .ok st

/-- One iteration of the inner while(true) of HashList::load: while the
magic is unchecked, try to read a line and fail with bad_message when it is
not the magic (note the source never sets magic_checked to true after a
match); else extract the 64-byte signature, else successive 64-byte hashes;
then fall through to the stall check.  .error is a bad-message return out of
load; .ok is the state the next iteration runs on. -/
def hashListInnerStep (st : HLState) : Except Unit HLState :=
  if st.magic_checked = false then
    match read_line st.buffer with
    | some (line, rest) =>
        if line ≠ hashListMagic then .error ()
        else hashListCheckStall { st with buffer := rest, progress := true }
    | none => hashListCheckStall st
  else if st.signature.isNone then
    match read_array 64 st.buffer with
    | some (sg, rest) =>
        hashListCheckStall { st with buffer := rest, signature := some sg,
                                     progress := true }
    | none => hashListCheckStall st
  else
    match read_array 64 st.buffer with
    | some (h, rest) =>
        hashListCheckStall { st with buffer := rest, hashes := st.hashes ++ [h],
                                     progress := true }
    | none => hashListCheckStall st

/-- The inner loop driven with fuel: the source loop has no break, so it can
only leave through the bad-message returns — some () — and with any finite
fuel the outcome none means the loop is still running. -/
def hashListInnerLoop : Nat → HLState → Option Unit
  | 0, _ => none
  | n+1, st =>
      match hashListInnerStep st with
      | .error e => some e
      | .ok st' => hashListInnerLoop n st'

/-! ## Claim C10 -/

/-- C10 (the claim is right about the intent and the loop is wrong): the
inner parsing loop of HashList::load does not terminate once no further
item can be extracted.  Reading a buffered magic line leaves a state — the
empty buffer with progress latched true and magic_checked still false —
that the loop body maps to itself without exiting, and a small buffer with
no newline is likewise a fixed point, so for every amount of fuel the loop
is still running; the progress flag lives outside the loop, magic_checked
is never set, and the body has no break, so the exit the claim describes
never happens. -/
theorem C10_inner_loop_diverges :
    (hashListInnerStep ⟨hashListMagic ++ [10], false, none, [], false⟩ =
       .ok ⟨[], false, none, [], true⟩) ∧
    (hashListInnerStep ⟨[], false, none, [], true⟩ = .ok ⟨[], false, none, [], true⟩) ∧
    (hashListInnerStep ⟨[79, 85], false, none, [], false⟩ =
       .ok ⟨[79, 85], false, none, [], false⟩) ∧
    (∀ fuel, hashListInnerLoop fuel ⟨[], false, none, [], true⟩ = none) ∧
    (∀ fuel, hashListInnerLoop fuel ⟨[79, 85], false, none, [], false⟩ = none) := by
  have h1 : hashListInnerStep ⟨[], false, none, [], true⟩ =
      .ok ⟨[], false, none, [], true⟩ := rfl
  have h2 : hashListInnerStep ⟨[79, 85], false, none, [], false⟩ =
      .ok ⟨[79, 85], false, none, [], false⟩ := rfl
  refine ⟨rfl, h1, h2, ?_, ?_⟩
  · intro fuel
    induction fuel with
    | zero => rfl
    | succ n ih => simpa [hashListInnerLoop, h1] using ih
  · intro fuel
    induction fuel with
    | zero => rfl
    | succ n ih => simpa [hashListInnerLoop, h2] using ih

end Ouinet
